import Mathlib

/-!
Verification of the voice-chat orchestration in `sanduabey/zen`.

Server side: `src/app/api/chat/route.ts`, the `POST` handler of `/api/chat`.
Client side: `src/app/page.tsx`, the recorder/session controller (in particular
the `onstop` closure installed by `startRecording`).

The three OpenAI capabilities (Whisper transcription, chat completion, TTS)
and the platform function `JSON.parse` are external collaborators; they are
modelled as an environment record of (pure) oracle functions.  The handler
itself is embedded as a pure Lean function of the environment and the parsed
request, returning both the HTTP response and the ordered list of capability
calls it performed.
-/

namespace Zen

/-! ## Server data model (route.ts) -/

/-- Role vocabulary of `ApiChatMessage` (route.ts line 12-15, page.tsx 14-17). -/
inductive ApiRole where
  | user
  | assistant
  | system
deriving DecidableEq, Repr

/-- `interface ApiChatMessage { role; content }` (route.ts lines 12-15). -/
structure ApiChatMessage where
  role : ApiRole
  content : String
deriving DecidableEq, Repr

/-- The audio `File` extracted from the form data (route.ts line 22):
only its metadata is observable to the handler. -/
structure AudioFile where
  name : String
  size : Nat
  type : String
deriving DecidableEq, Repr

/-- Parsed form data of one request: optional `audio` part and optional
`history` string part (route.ts lines 21-24). -/
structure ApiRequest where
  audio : Option AudioFile
  history : Option String
deriving DecidableEq, Repr

/-- Body of the JSON response sent by the handler: the success shape
`{ userTranscript, llmTextResponse, audioBase64 }` (route.ts 78-82, 87-91,
155-159), the bad-request shape `{ error }` (line 29), and the unhandled
exception shape `{ error, details }` (line 165). -/
inductive ResponseBody where
  | chat (userTranscript : String) (llmTextResponse : String)
      (audioBase64 : Option String)
  | badRequest (error : String)
  | serverError (error : String) (details : String)
deriving DecidableEq, Repr

/-- An HTTP response: status code plus JSON body. -/
structure ApiResponse where
  status : Nat
  body : ResponseBody
deriving DecidableEq, Repr

/-- One invocation of an external capability, in invocation order:
Whisper transcription (route.ts 44-48), chat completion (107-111),
speech synthesis with its voice and input text (68-73 and 132-137). -/
inductive CallEvent where
  | stt (file : AudioFile)
  | llm (messages : List ApiChatMessage)
  | tts (voice : String) (input : String)
deriving DecidableEq, Repr

/-- Environment of external collaborators.  Each capability is an oracle:
a pure function from its request to either a failure (the message of the
thrown error) or its successful result.
  * `parseJSON` models the platform `JSON.parse` on the history string
    (route.ts line 24); on success it yields the decoded message list.
  * `stt` models `openai.audio.transcriptions.create`, yielding
    `transcription.text` (line 49).
  * `llm` models `openai.chat.completions.create`, yielding
    `chatCompletion.choices[0]?.message?.content` — `none` when any link of
    that optional chain is absent (line 113).
  * `tts` models `openai.audio.speech.create` applied to a voice and an
    input text, yielding the base64 rendering of the returned bytes
    (lines 68-75 and 132-141). -/
structure ServerEnv where
  parseJSON : String → Except String (List ApiChatMessage)
  stt : AudioFile → Except String String
  llm : List ApiChatMessage → Except String (Option String)
  tts : (voice : String) → (input : String) → Except String String

/-! ## String constants of route.ts -/

/-- Sentinel transcript substituted when transcription throws (line 54). -/
def failureSentinel : String := "[Audio could not be transcribed]"

/-- Clarification when transcription failed (route.ts line 62). -/
def couldNotUnderstandMessage : String :=
  "Sorry, I couldn\x27t understand the audio. Please try again."

/-- Clarification when the transcript is empty/whitespace (route.ts line 63). -/
def didNotCatchMessage : String :=
  "Sorry, I didn\x27t catch that. Could you please speak clearly?"

/-- Substitute when the LLM returns empty content (route.ts line 115). -/
def emptyLlmMessage : String :=
  "Sorry, I could not generate a response at this moment."

/-- Fixed apology substituted when the chat completion throws (line 122). -/
def apologyMessage : String :=
  "Sorry, I encountered an error while processing your request."

/-- System prompt of the chat completion request (route.ts line 100). -/
def systemPrompt : String :=
  "You are a helpful and concise voice assistant. Respond clearly and naturally."

/-! ## The POST handler, stage by stage -/

/-- `historyString ? JSON.parse(historyString) : []` (route.ts line 24):
an absent or empty (JS-falsy) history string parses to `[]`; otherwise the
platform JSON parser decides, and a parse error is the thrown exception
that the outer `catch` later turns into a 500. -/
def parseHistory (env : ServerEnv) (history : Option String) :
    Except String (List ApiChatMessage) :=
  match history with
  | none => .ok []
  | some s => if s = "" then .ok [] else env.parseJSON s

/-- The transcript after stage 2 (route.ts lines 40-56): the text the
capability returned on success, the failure sentinel if transcription threw. -/
def transcriptOf (env : ServerEnv) (file : AudioFile) : String :=
  match env.stt file with
  | .ok t => t
  | .error _ => failureSentinel

/-- JavaScript `String.prototype.trim`: strip leading and trailing
whitespace.  (JS trims the Unicode whitespace class; ASCII whitespace is
what every claim here involves.) -/
def jsTrim (s : String) : String :=
  ⟨((s.data.dropWhile Char.isWhitespace).reverse.dropWhile
      Char.isWhitespace).reverse⟩

/-- The guard of route.ts line 59:
`!userTranscript || userTranscript.trim().length < 1 || userTranscript === "[Audio could not be transcribed]"`. -/
def emptyOrFailedTranscript (t : String) : Prop :=
  t = "" ∨ (jsTrim t).length < 1 ∨ t = failureSentinel

instance (t : String) : Decidable (emptyOrFailedTranscript t) :=
  inferInstanceAs (Decidable (t = "" ∨ (jsTrim t).length < 1 ∨ t = failureSentinel))

/-- The clarification message chosen at route.ts lines 60-63. -/
def clarificationMessage (t : String) : String :=
  if t = failureSentinel then couldNotUnderstandMessage else didNotCatchMessage

/-- The empty/failed-transcript branch (route.ts lines 59-93): synthesize the
clarification with voice `alloy`; on synthesis failure fall back to text only.
Either way the status is 200.  (`userTranscript || ""` of lines 79 and 88
equals `userTranscript` whether or not it is empty.) -/
def clarificationResponse (env : ServerEnv) (userTranscript : String) :
    ApiResponse × List CallEvent :=
  match env.tts "alloy" (clarificationMessage userTranscript) with
  | .ok audio =>
      (⟨200, .chat userTranscript (clarificationMessage userTranscript)
          (some audio)⟩,
        [CallEvent.tts "alloy" (clarificationMessage userTranscript)])
  | .error _ =>
      (⟨200, .chat userTranscript (clarificationMessage userTranscript) none⟩,
        [CallEvent.tts "alloy" (clarificationMessage userTranscript)])

/-- The message list of the chat-completion request (route.ts lines 99-103):
system prompt, then caller history in order, then the new user transcript. -/
def chatMessages (conversationHistory : List ApiChatMessage)
    (userTranscript : String) : List ApiChatMessage :=
  ⟨.system, systemPrompt⟩ :: conversationHistory ++ [⟨.user, userTranscript⟩]

/-- The reply text after stage 3 (route.ts lines 105-124):
`choices[0]?.message?.content?.trim()` with the JS empty-string fallback
and the empty-content and
thrown-error substitutions. -/
def llmReply (env : ServerEnv) (messages : List ApiChatMessage) : String :=
  match env.llm messages with
  | .ok content =>
      if jsTrim (content.getD "") = "" then emptyLlmMessage
      else jsTrim (content.getD "")
  | .error _ => apologyMessage

/-- Stages 3-5 on the normal branch (route.ts lines 96-159): chat completion
with fallbacks, then synthesis with voice `nova` only if the reply text is
non-empty (line 130), degrading to `audioBase64: null` if synthesis throws. -/
def normalResponse (env : ServerEnv)
    (conversationHistory : List ApiChatMessage) (userTranscript : String) :
    ApiResponse × List CallEvent :=
  if llmReply env (chatMessages conversationHistory userTranscript) = "" then
    (⟨200, .chat userTranscript
        (llmReply env (chatMessages conversationHistory userTranscript)) none⟩,
      [CallEvent.llm (chatMessages conversationHistory userTranscript)])
  else
    match env.tts "nova"
        (llmReply env (chatMessages conversationHistory userTranscript)) with
    | .ok audio =>
        (⟨200, .chat userTranscript
            (llmReply env (chatMessages conversationHistory userTranscript))
            (some audio)⟩,
          [CallEvent.llm (chatMessages conversationHistory userTranscript),
           CallEvent.tts "nova"
             (llmReply env (chatMessages conversationHistory userTranscript))])
    | .error _ =>
        (⟨200, .chat userTranscript
            (llmReply env (chatMessages conversationHistory userTranscript))
            none⟩,
          [CallEvent.llm (chatMessages conversationHistory userTranscript),
           CallEvent.tts "nova"
             (llmReply env (chatMessages conversationHistory userTranscript))])

/-- The `POST` handler of `/api/chat` (route.ts lines 18-167), as a pure
function of the environment and the parsed form data.  Returns the response
and the ordered list of capability invocations.  A history parse failure is
the thrown exception reaching the outer `catch` (lines 161-166); note it is
raised at line 24, before the missing-audio validation of lines 27-30. -/
def POST (env : ServerEnv) (req : ApiRequest) : ApiResponse × List CallEvent :=
  match parseHistory env req.history with
  | .error m =>
      (⟨500, .serverError "Failed to process audio chat"
          (if m = "" then "Unknown server error" else m)⟩, [])
  | .ok conversationHistory =>
      match req.audio with
      | none => (⟨400, .badRequest "No audio file provided"⟩, [])
      | some audioFile =>
          if emptyOrFailedTranscript (transcriptOf env audioFile) then
            ((clarificationResponse env (transcriptOf env audioFile)).1,
              CallEvent.stt audioFile ::
                (clarificationResponse env (transcriptOf env audioFile)).2)
          else
            ((normalResponse env conversationHistory
                (transcriptOf env audioFile)).1,
              CallEvent.stt audioFile ::
                (normalResponse env conversationHistory
                  (transcriptOf env audioFile)).2)

/-! ## Client data model (page.tsx)

The `onstop` closure of the recorder (page.tsx lines 81-211) is the client logic
the claims are about.  Two JavaScript subtleties are embedded faithfully:

* the closure captures the React state values `status` and `conversation`
  from the render in which `startRecording` ran, so the condition of the
  `finally` block (line 205) and the history construction (line 117) read those
  *captured* values, while `setStatus` / the functional
  `setConversation(prev => ...)` act on the *live* state;
* the status updates inside `play().then / .catch` (lines 174-181) are
  scheduled asynchronously, so they land after the `finally` block ran. -/

/-- Role vocabulary of `ConversationMessage` (page.tsx lines 7-11). -/
inductive ConvRole where
  | you
  | assistant
  | system
  | error
deriving DecidableEq, Repr

/-- `interface ConversationMessage { role; text; audio? }` (page.tsx 7-11). -/
structure ConversationMessage where
  role : ConvRole
  text : String
  audio : Option String := none
deriving DecidableEq, Repr

/-- The client session state: the React state variables (page.tsx 22-25)
plus the accumulated audio chunk sizes (`audioChunksRef`, line 29). -/
structure ClientState where
  isRecording : Bool
  isLoading : Bool
  conversation : List ConversationMessage
  status : String
  audioChunks : List Nat
deriving DecidableEq, Repr

/-- What one submission sends to the server (page.tsx lines 109-133):
the trimmed history and the total byte count of the audio blob. -/
structure SentRequest where
  history : List ApiChatMessage
  audioBytes : Nat
deriving DecidableEq, Repr

/-- A parsed JSON error body, as read by the `!response.ok` branch
(page.tsx lines 141-149): the `error` and `details` fields when they are
present strings. -/
structure ErrorBodyJson where
  error : Option String
  details : Option String
deriving DecidableEq, Repr

/-- Outcome of the single `fetch` call (page.tsx line 129):
the promise rejects with a message; or an HTTP error response arrives,
whose body may or may not parse as JSON; or a success response arrives,
carrying the three fields of the JSON body (`none` when a field is absent
or not a string, matching the `typeof` validation of line 159). -/
inductive FetchOutcome where
  | networkError (message : String)
  | httpError (status : Nat) (statusText : String) (body : Option ErrorBodyJson)
  | success (userTranscript : Option String) (llmTextResponse : Option String)
      (audioBase64 : Option String)
deriving DecidableEq, Repr

/-- JavaScript `x || d` for an optional string `x`: the default wins when
the field is absent or the empty string (both falsy). -/
def jsOr (x : Option String) (d : String) : String :=
  match x with
  | some s => if s = "" then d else s
  | none => d

/-- JavaScript `s.startsWith(p)`. -/
def jsStartsWith (s p : String) : Bool :=
  p.data.isPrefixOf s.data

/-- Whether `needle` occurs contiguously inside `haystack`. -/
def listContains (needle haystack : List Char) : Bool :=
  match haystack with
  | [] => needle.isEmpty
  | _ :: t => needle.isPrefixOf haystack || listContains needle t

/-- JavaScript `s.includes(sub)`. -/
def jsIncludes (s sub : String) : Bool :=
  listContains sub.data s.data

/-- One history entry for the API (page.tsx lines 120-123):
a conditional on the role mapping "You" to "user" and anything else to
"assistant", with the turn text as content. -/
def apiOfMessage (m : ConversationMessage) : ApiChatMessage :=
  ⟨if m.role = ConvRole.you then ApiRole.user else ApiRole.assistant, m.text⟩

/-- The history payload (page.tsx lines 117-123):
`conversation.slice(-8).filter(role is You or Assistant).map(...)`.
JS `slice(-8)` is the last eight elements, i.e. `drop (length - 8)`. -/
def buildHistoryForApi (conversation : List ConversationMessage) :
    List ApiChatMessage :=
  (((conversation.drop (conversation.length - 8)).filter
      (fun m => m.role = ConvRole.you ∨ m.role = ConvRole.assistant)).map
    apiOfMessage)

/-- The `catch` block of the submission (page.tsx lines 191-200): set an
error status and append an Error turn carrying the failure message. -/
def catchBranch (st : ClientState) (message : String) : ClientState :=
  { st with
      status := "Error: " ++ message,
      conversation := st.conversation ++
        [⟨ConvRole.error, "Processing failed: " ++ message, none⟩] }

/-- The message thrown on `!response.ok` (page.tsx lines 138-150):
`errorData.error || errorData.details || defaultMsg` when the body is JSON,
`defaultMsg: statusText` when it is not. -/
def httpErrorMessage (status : Nat) (statusText : String)
    (body : Option ErrorBodyJson) : String :=
  let base := "API request failed with status " ++ toString status
  match body with
  | some b => jsOr b.error (jsOr b.details base)
  | none => base ++ ": " ++ statusText

/-- The `try`/`catch` of the submission (page.tsx lines 128-200), given the
fetch outcome.  Returns the state after the synchronous part and, when
playback was started, the status that the asynchronous `play().then/.catch`
handler will set *after* the `finally` block (page.tsx lines 174-181). -/
def processFetch (st : ClientState) (fetch : FetchOutcome)
    (playResolves : Bool) : ClientState × Option String :=
  match fetch with
  | .networkError m => (catchBranch st m, none)
  | .httpError status statusText body =>
      (catchBranch st (httpErrorMessage status statusText body), none)
  | .success userTranscript llmTextResponse audioBase64 =>
      match userTranscript, llmTextResponse with
      | some ut, some llm =>
          let st := { st with status := "Received response." }
          let newUserMessage : ConversationMessage :=
            ⟨ConvRole.you, if ut = "" then "(No transcription)" else ut, none⟩
          let newAssistantMessage : ConversationMessage :=
            ⟨ConvRole.assistant, llm, audioBase64⟩
          let st := { st with
            conversation := st.conversation ++
              [newUserMessage, newAssistantMessage] }
          if jsOr audioBase64 "" ≠ "" then
            (st, some (if playResolves then
                "Playing response... Click Start Recording when ready."
              else
                "Received response. Click \x27Replay Audio\x27 to listen."))
          else if llm ≠ "" then
            ({ st with status :=
                "Received text response. Click Start Recording when ready." },
              none)
          else
            ({ st with status := "Processing complete. Click Start Recording." },
              none)
      | _, _ =>
          (catchBranch st "Invalid response format received from API.", none)

/-- The `finally` block (page.tsx lines 201-210): reset the loading and
recording flags, clear the chunk buffer, and reset the status — but only
when the *closure-captured* status is not an error/playback message. -/
def finallyBlock (st : ClientState) (capturedStatus : String) : ClientState :=
  { st with
      isLoading := false,
      isRecording := false,
      status :=
        if ¬ jsStartsWith capturedStatus "Error" ∧
            ¬ jsIncludes capturedStatus "Replay" ∧
            ¬ jsIncludes capturedStatus "Playing" then
          "Ready. Click Start Recording."
        else st.status,
      audioChunks := [] }

/-- The state right after the `onstop` handler starts (page.tsx 82-83):
loading flag raised, processing status shown. -/
def stopInitial (st : ClientState) : ClientState :=
  { st with
      isLoading := true, status := "Recording stopped. Processing audio..." }

/-- Applying the asynchronous playback status, when one was scheduled. -/
def applyDeferred (st : ClientState) (deferred : Option String) : ClientState :=
  match deferred with
  | some s => { st with status := s }
  | none => st

/-- The `onstop` closure installed by `startRecording` (page.tsx 81-211).
`st` is the live session state when recording stops (its `audioChunks` is
`audioChunksRef.current`); `capturedStatus` and `capturedConversation` are
the React values captured by the closure when `startRecording` ran;
`fetch` and `playResolves` say what the network and the audio element would
do.  Returns the final state and the request sent, if any.  In the
zero-chunk branch (page.tsx 94-100) the handler returns before the
`try`/`finally`, so the chunk buffer is not cleared there and no request is
sent. -/
def onstop (st : ClientState) (capturedStatus : String)
    (capturedConversation : List ConversationMessage)
    (fetch : FetchOutcome) (playResolves : Bool) :
    ClientState × Option SentRequest :=
  if st.audioChunks.length = 0 then
    ({ stopInitial st with
        status := "No audio detected. Please try recording again.",
        isLoading := false, isRecording := false }, none)
  else
    (applyDeferred
        (finallyBlock
          (processFetch (stopInitial st) fetch playResolves).1 capturedStatus)
        (processFetch (stopInitial st) fetch playResolves).2,
      some ⟨buildHistoryForApi capturedConversation, st.audioChunks.sum⟩)

/-! ## Concrete fixtures used by the witness theorems -/

/-- An all-succeeding environment: transcription hears a greeting, the LLM
answers, synthesis prepends a marker to its input. -/
def demoEnv : ServerEnv where
  parseJSON := fun _ => .ok []
  stt := fun _ => .ok "Hello there"
  llm := fun _ => .ok (some "Hi! How can I help?")
  tts := fun _ input => .ok ("MP3:" ++ input)

/-- A typical uploaded audio file. -/
def demoFile : AudioFile := ⟨"recording.webm", 4096, "audio/webm"⟩

/-- Like `demoEnv` but transcription returns the empty string. -/
def emptySttEnv : ServerEnv :=
  { demoEnv with stt := fun _ => .ok "" }

/-- Like `demoEnv` but transcription throws. -/
def failingSttEnv : ServerEnv :=
  { demoEnv with stt := fun _ => .error "connection reset" }

/-- Like `demoEnv` but the chat completion throws. -/
def failingLlmEnv : ServerEnv :=
  { demoEnv with llm := fun _ => .error "rate limited" }

/-- Like `demoEnv` but the history string does not parse:
`JSON.parse` throws on any input it is given here, as it does on the
concrete history string "not json". -/
def badJsonEnv : ServerEnv :=
  { demoEnv with
      parseJSON := fun _ => .error "Unexpected token o in JSON at position 1" }

/-- A request carrying no audio part but a malformed history part. -/
def noAudioBadHistoryReq : ApiRequest := ⟨none, some "not json"⟩

/-- A client session state with one 100-byte chunk recorded, as captured
while the recorder was running. -/
def recordedState : ClientState :=
  ⟨true, false, [], "Recording... Click Stop Recording", [100]⟩

/-- A ten-turn captured conversation containing Error and System turns. -/
def demoConversation : List ConversationMessage :=
  [⟨ConvRole.you, "turn one", none⟩,
   ⟨ConvRole.assistant, "turn two", some "MP3:turn two"⟩,
   ⟨ConvRole.error, "Processing failed: network", none⟩,
   ⟨ConvRole.you, "turn four", none⟩,
   ⟨ConvRole.assistant, "turn five", none⟩,
   ⟨ConvRole.system, "turn six", none⟩,
   ⟨ConvRole.you, "turn seven", none⟩,
   ⟨ConvRole.error, "Processing failed: again", none⟩,
   ⟨ConvRole.you, "turn nine", none⟩,
   ⟨ConvRole.assistant, "turn ten", some "MP3:turn ten"⟩]

/-! ## Helper lemmas -/

theorem clarificationMessage_ne_empty (t : String) :
    clarificationMessage t ≠ "" := by
  unfold clarificationMessage
  split <;> decide

theorem llmReply_ne_empty (env : ServerEnv) (ms : List ApiChatMessage) :
    llmReply env ms ≠ "" := by
  unfold llmReply
  cases h : env.llm ms with
  | ok content =>
      dsimp only
      by_cases ht : jsTrim (content.getD "") = ""
      · rw [if_pos ht]; decide
      · rw [if_neg ht]; exact ht
  | error e => dsimp only; decide

theorem buildHistoryForApi_length (c : List ConversationMessage) :
    (buildHistoryForApi c).length ≤ 8 := by
  unfold buildHistoryForApi
  rw [List.length_map]
  calc (List.filter _ (c.drop (c.length - 8))).length
      ≤ (c.drop (c.length - 8)).length := List.length_filter_le _ _
    _ ≤ 8 := by rw [List.length_drop]; omega

theorem buildHistoryForApi_mem (c : List ConversationMessage)
    (m : ApiChatMessage) (hm : m ∈ buildHistoryForApi c) :
    ∃ t, t ∈ c ∧ (t.role = ConvRole.you ∨ t.role = ConvRole.assistant) ∧
      m = apiOfMessage t := by
  unfold buildHistoryForApi at hm
  obtain ⟨t, ht, rfl⟩ := List.mem_map.mp hm
  obtain ⟨hdrop, hrole⟩ := List.mem_filter.mp ht
  refine ⟨t, List.drop_subset _ _ hdrop, ?_, rfl⟩
  exact of_decide_eq_true hrole

theorem clarificationResponse_status (env : ServerEnv) (t : String) :
    (clarificationResponse env t).1.status = 200 := by
  unfold clarificationResponse
  cases env.tts "alloy" (clarificationMessage t) <;> rfl

theorem clarificationResponse_body (env : ServerEnv) (t : String) :
    ∃ a, (clarificationResponse env t).1.body =
      ResponseBody.chat t (clarificationMessage t) a := by
  unfold clarificationResponse
  cases h : env.tts "alloy" (clarificationMessage t) with
  | ok audio => exact ⟨some audio, rfl⟩
  | error e => exact ⟨none, rfl⟩

theorem clarificationResponse_calls (env : ServerEnv) (t : String) :
    (clarificationResponse env t).2 =
      [CallEvent.tts "alloy" (clarificationMessage t)] := by
  unfold clarificationResponse
  cases env.tts "alloy" (clarificationMessage t) <;> rfl

theorem normalResponse_status (env : ServerEnv)
    (hist : List ApiChatMessage) (t : String) :
    (normalResponse env hist t).1.status = 200 := by
  unfold normalResponse
  by_cases hl : llmReply env (chatMessages hist t) = ""
  · rw [if_pos hl]
  · rw [if_neg hl]
    cases env.tts "nova" (llmReply env (chatMessages hist t)) <;> rfl

theorem normalResponse_body (env : ServerEnv)
    (hist : List ApiChatMessage) (t : String) :
    ∃ a, (normalResponse env hist t).1.body =
      ResponseBody.chat t (llmReply env (chatMessages hist t)) a := by
  unfold normalResponse
  by_cases hl : llmReply env (chatMessages hist t) = ""
  · rw [if_pos hl]; exact ⟨none, rfl⟩
  · rw [if_neg hl]
    cases h : env.tts "nova" (llmReply env (chatMessages hist t)) with
    | ok audio => exact ⟨some audio, rfl⟩
    | error e => exact ⟨none, rfl⟩

theorem normalResponse_calls (env : ServerEnv)
    (hist : List ApiChatMessage) (t : String)
    (hl : llmReply env (chatMessages hist t) ≠ "") :
    (normalResponse env hist t).2 =
      [CallEvent.llm (chatMessages hist t),
       CallEvent.tts "nova" (llmReply env (chatMessages hist t))] := by
  unfold normalResponse
  rw [if_neg hl]
  cases env.tts "nova" (llmReply env (chatMessages hist t)) <;> rfl

theorem POST_parseError (env : ServerEnv) (req : ApiRequest) (m : String)
    (hp : parseHistory env req.history = .error m) :
    POST env req =
      (⟨500, .serverError "Failed to process audio chat"
          (if m = "" then "Unknown server error" else m)⟩, []) := by
  unfold POST
  rw [hp]

theorem POST_noAudio (env : ServerEnv) (req : ApiRequest)
    (hist : List ApiChatMessage)
    (hp : parseHistory env req.history = .ok hist)
    (hq : req.audio = none) :
    POST env req = (⟨400, .badRequest "No audio file provided"⟩, []) := by
  unfold POST
  rw [hp, hq]

theorem POST_clarification (env : ServerEnv) (req : ApiRequest)
    (f : AudioFile) (hist : List ApiChatMessage)
    (hp : parseHistory env req.history = .ok hist)
    (hq : req.audio = some f)
    (hb : emptyOrFailedTranscript (transcriptOf env f)) :
    POST env req =
      ((clarificationResponse env (transcriptOf env f)).1,
        CallEvent.stt f ::
          (clarificationResponse env (transcriptOf env f)).2) := by
  unfold POST
  rw [hp, hq]
  dsimp only
  rw [if_pos hb]

theorem POST_normal (env : ServerEnv) (req : ApiRequest)
    (f : AudioFile) (hist : List ApiChatMessage)
    (hp : parseHistory env req.history = .ok hist)
    (hq : req.audio = some f)
    (hb : ¬ emptyOrFailedTranscript (transcriptOf env f)) :
    POST env req =
      ((normalResponse env hist (transcriptOf env f)).1,
        CallEvent.stt f ::
          (normalResponse env hist (transcriptOf env f)).2) := by
  unfold POST
  rw [hp, hq]
  dsimp only
  rw [if_neg hb]

/-! ## Claim theorems -/

/-- C1: in every response of the orchestrator, `audioBase64` is non-null
only if the speech-synthesis capability, at one of the two voices the
handler uses, succeeded on exactly the string returned as
`llmTextResponse` — never on a different text than the one returned. -/
theorem replyAudio_matches_replyText (env : ServerEnv) (req : ApiRequest)
    (ut rt a : String)
    (h : (POST env req).1.body = ResponseBody.chat ut rt (some a)) :
    env.tts "alloy" rt = .ok a ∨ env.tts "nova" rt = .ok a := by
  unfold POST at h
  cases hp : parseHistory env req.history with
  | error m => rw [hp] at h; simp at h
  | ok hist =>
      rw [hp] at h
      cases hq : req.audio with
      | none => rw [hq] at h; simp at h
      | some f =>
          rw [hq] at h
          simp only at h
          by_cases hb : emptyOrFailedTranscript (transcriptOf env f)
          · rw [if_pos hb] at h
            unfold clarificationResponse at h
            cases htts : env.tts "alloy"
                (clarificationMessage (transcriptOf env f)) with
            | ok audio =>
                rw [htts] at h
                simp only [ResponseBody.chat.injEq, Option.some.injEq] at h
                obtain ⟨-, hrt, ha⟩ := h
                subst ha
                rw [← hrt]
                exact Or.inl htts
            | error e =>
                rw [htts] at h
                simp at h
          · rw [if_neg hb] at h
            unfold normalResponse at h
            by_cases hl :
                llmReply env (chatMessages hist (transcriptOf env f)) = ""
            · rw [if_pos hl] at h
              simp at h
            · rw [if_neg hl] at h
              cases htts : env.tts "nova"
                  (llmReply env (chatMessages hist (transcriptOf env f))) with
              | ok audio =>
                  rw [htts] at h
                  simp only [ResponseBody.chat.injEq, Option.some.injEq] at h
                  obtain ⟨-, hrt, ha⟩ := h
                  subst ha
                  rw [← hrt]
                  exact Or.inr htts
              | error e =>
                  rw [htts] at h
                  simp at h

/-- C1 witness: with the all-succeeding environment, the returned audio is
the synthesis of the returned reply text. -/
theorem replyAudio_matches_replyText_witness :
    demoEnv.tts "alloy" "Hi! How can I help?" = .ok "MP3:Hi! How can I help?" ∨
    demoEnv.tts "nova" "Hi! How can I help?" = .ok "MP3:Hi! How can I help?" :=
  replyAudio_matches_replyText demoEnv ⟨some demoFile, some "[]"⟩
    "Hello there" "Hi! How can I help?" "MP3:Hi! How can I help?" (by rfl)

/-- C2: for every request whose transcript is empty, whitespace-only, or
the failure sentinel, the chat-completion capability is never invoked; the
response carries a clarification message as `llmTextResponse` (the
could-not-understand message exactly when the transcript is the sentinel,
the did-not-catch message otherwise, and the two are distinct) with HTTP
status 200, with or without synthesized audio. -/
theorem emptyTranscript_skips_llm (env : ServerEnv) (req : ApiRequest)
    (f : AudioFile) (hist : List ApiChatMessage)
    (hp : parseHistory env req.history = .ok hist)
    (hq : req.audio = some f)
    (hb : emptyOrFailedTranscript (transcriptOf env f)) :
    (∀ ms, CallEvent.llm ms ∉ (POST env req).2) ∧
    (POST env req).1.status = 200 ∧
    (∃ a, (POST env req).1.body =
      ResponseBody.chat (transcriptOf env f)
        (clarificationMessage (transcriptOf env f)) a) ∧
    clarificationMessage failureSentinel = couldNotUnderstandMessage ∧
    (transcriptOf env f ≠ failureSentinel →
      clarificationMessage (transcriptOf env f) = didNotCatchMessage) ∧
    couldNotUnderstandMessage ≠ didNotCatchMessage := by
  rw [POST_clarification env req f hist hp hq hb]
  refine ⟨?_, clarificationResponse_status env _, clarificationResponse_body env _,
    ?_, ?_, by decide⟩
  · intro ms hm
    simp only [List.mem_cons] at hm
    rcases hm with hm | hm
    · exact CallEvent.noConfusion hm
    · rw [clarificationResponse_calls] at hm
      simp at hm
  · unfold clarificationMessage
    rw [if_pos rfl]
  · intro hne
    unfold clarificationMessage
    rw [if_neg hne]

/-- C2 witness: transcription heard the empty string; the did-not-catch
clarification comes back and no chat completion happened. -/
theorem emptyTranscript_skips_llm_witness :
    (∀ ms, CallEvent.llm ms ∉
      (POST emptySttEnv ⟨some demoFile, none⟩).2) ∧
    (POST emptySttEnv ⟨some demoFile, none⟩).1.status = 200 ∧
    (∃ a, (POST emptySttEnv ⟨some demoFile, none⟩).1.body =
      ResponseBody.chat (transcriptOf emptySttEnv demoFile)
        (clarificationMessage (transcriptOf emptySttEnv demoFile)) a) ∧
    clarificationMessage failureSentinel = couldNotUnderstandMessage ∧
    (transcriptOf emptySttEnv demoFile ≠ failureSentinel →
      clarificationMessage (transcriptOf emptySttEnv demoFile) =
        didNotCatchMessage) ∧
    couldNotUnderstandMessage ≠ didNotCatchMessage :=
  emptyTranscript_skips_llm emptySttEnv ⟨some demoFile, none⟩ demoFile []
    (by rfl) (by rfl) (by decide)

/-- C3: in the normal (non-empty, non-sentinel transcript) branch, if the
chat completion throws, the response still has status 200, its
`llmTextResponse` is the fixed apology string, and the pipeline went on to
invoke speech synthesis on that apology rather than aborting. -/
theorem llmFailure_returns_apology (env : ServerEnv) (req : ApiRequest)
    (f : AudioFile) (hist : List ApiChatMessage) (e : String)
    (hp : parseHistory env req.history = .ok hist)
    (hq : req.audio = some f)
    (hb : ¬ emptyOrFailedTranscript (transcriptOf env f))
    (hllm : env.llm (chatMessages hist (transcriptOf env f)) = .error e) :
    (POST env req).1.status = 200 ∧
    (∃ a, (POST env req).1.body =
      ResponseBody.chat (transcriptOf env f) apologyMessage a) ∧
    CallEvent.tts "nova" apologyMessage ∈ (POST env req).2 := by
  have hreply : llmReply env (chatMessages hist (transcriptOf env f)) =
      apologyMessage := by
    unfold llmReply
    rw [hllm]
  rw [POST_normal env req f hist hp hq hb]
  refine ⟨normalResponse_status env hist _, ?_, ?_⟩
  · obtain ⟨a, ha⟩ := normalResponse_body env hist (transcriptOf env f)
    exact ⟨a, by rw [← hreply]; exact ha⟩
  · have hcalls := normalResponse_calls env hist (transcriptOf env f)
      (by rw [hreply]; decide)
    simp only [List.mem_cons, hcalls, hreply]
    simp

/-- C3 witness: with a throwing chat completion and a normal transcript,
status 200, the apology as reply text, and a synthesis call on it. -/
theorem llmFailure_returns_apology_witness :
    (POST failingLlmEnv ⟨some demoFile, none⟩).1.status = 200 ∧
    (∃ a, (POST failingLlmEnv ⟨some demoFile, none⟩).1.body =
      ResponseBody.chat (transcriptOf failingLlmEnv demoFile)
        apologyMessage a) ∧
    CallEvent.tts "nova" apologyMessage ∈
      (POST failingLlmEnv ⟨some demoFile, none⟩).2 :=
  llmFailure_returns_apology failingLlmEnv ⟨some demoFile, none⟩ demoFile []
    "rate limited" (by rfl) (by rfl) (by decide) (by rfl)

/-- C9: if the audio part is present and transcription throws, the response
has status 200, its `userTranscript` is the failure sentinel (which differs
from the empty string), and its `llmTextResponse` is the
could-not-understand clarification message. -/
theorem sttFailure_returns_sentinel (env : ServerEnv) (req : ApiRequest)
    (f : AudioFile) (hist : List ApiChatMessage) (e : String)
    (hp : parseHistory env req.history = .ok hist)
    (hq : req.audio = some f)
    (hstt : env.stt f = .error e) :
    (POST env req).1.status = 200 ∧
    (∃ a, (POST env req).1.body =
      ResponseBody.chat failureSentinel couldNotUnderstandMessage a) ∧
    failureSentinel ≠ "" := by
  have ht : transcriptOf env f = failureSentinel := by
    unfold transcriptOf
    rw [hstt]
  have hb : emptyOrFailedTranscript (transcriptOf env f) := by
    rw [ht]
    exact Or.inr (Or.inr rfl)
  rw [POST_clarification env req f hist hp hq hb]
  refine ⟨clarificationResponse_status env _, ?_, by decide⟩
  obtain ⟨a, ha⟩ := clarificationResponse_body env (transcriptOf env f)
  refine ⟨a, ?_⟩
  rw [ha, ht]
  unfold clarificationMessage
  rw [if_pos rfl]

/-- C9 witness: a throwing transcription yields the sentinel transcript and
the could-not-understand clarification with status 200. -/
theorem sttFailure_returns_sentinel_witness :
    (POST failingSttEnv ⟨some demoFile, none⟩).1.status = 200 ∧
    (∃ a, (POST failingSttEnv ⟨some demoFile, none⟩).1.body =
      ResponseBody.chat failureSentinel couldNotUnderstandMessage a) ∧
    failureSentinel ≠ "" :=
  sttFailure_returns_sentinel failingSttEnv ⟨some demoFile, none⟩ demoFile []
    "connection reset" (by rfl) (by rfl) (by rfl)

/-- C10: every response the orchestrator returns with status 200 carries a
non-empty `llmTextResponse`: the clarification branch supplies a non-empty
clarification, and in the normal branch an empty or thrown chat-completion
result is replaced by a fixed non-empty string. -/
theorem success_reply_nonempty (env : ServerEnv) (req : ApiRequest)
    (h : (POST env req).1.status = 200) :
    ∃ ut rt a, (POST env req).1.body = ResponseBody.chat ut rt a ∧
      rt ≠ "" := by
  cases hp : parseHistory env req.history with
  | error m =>
      rw [POST_parseError env req m hp] at h
      simp at h
  | ok hist =>
      cases hq : req.audio with
      | none =>
          rw [POST_noAudio env req hist hp hq] at h
          simp at h
      | some f =>
          by_cases hb : emptyOrFailedTranscript (transcriptOf env f)
          · rw [POST_clarification env req f hist hp hq hb]
            obtain ⟨a, ha⟩ := clarificationResponse_body env (transcriptOf env f)
            exact ⟨_, _, a, ha, clarificationMessage_ne_empty _⟩
          · rw [POST_normal env req f hist hp hq hb]
            obtain ⟨a, ha⟩ :=
              normalResponse_body env hist (transcriptOf env f)
            exact ⟨_, _, a, ha, llmReply_ne_empty env _⟩

/-- C10 witness: the all-succeeding run has status 200 and indeed a
non-empty reply text. -/
theorem success_reply_nonempty_witness :
    ∃ ut rt a,
      (POST demoEnv ⟨some demoFile, some "[]"⟩).1.body =
        ResponseBody.chat ut rt a ∧ rt ≠ "" :=
  success_reply_nonempty demoEnv ⟨some demoFile, some "[]"⟩ (by rfl)

/-- C4 counterexample: a request with no audio part but a malformed history
part gets a 500 server-error response, not a 400 bad-request one, because
route.ts parses the history string (line 24) before validating the audio
part (lines 27-30). -/
theorem missingAudio_badRequest_counterexample :
    noAudioBadHistoryReq.audio = none ∧
    (POST badJsonEnv noAudioBadHistoryReq).1.status = 500 ∧
    ¬ (POST badJsonEnv noAudioBadHistoryReq).1.status = 400 :=
  ⟨rfl, rfl, by decide⟩

/-- C4 as amended: for every request with no audio part whose history part
is absent, empty, or parses as valid JSON, the orchestrator responds 400
with body `{ error: string }` and invokes none of the three capabilities. -/
theorem missingAudio_badRequest (env : ServerEnv) (req : ApiRequest)
    (hist : List ApiChatMessage)
    (hq : req.audio = none)
    (hp : parseHistory env req.history = .ok hist) :
    (POST env req).1 = ⟨400, .badRequest "No audio file provided"⟩ ∧
    (POST env req).2 = [] := by
  rw [POST_noAudio env req hist hp hq]
  exact ⟨rfl, rfl⟩

/-- C4 witness: a request with neither audio nor history gets the 400. -/
theorem missingAudio_badRequest_witness :
    (POST demoEnv ⟨none, none⟩).1 =
      ⟨400, .badRequest "No audio file provided"⟩ ∧
    (POST demoEnv ⟨none, none⟩).2 = [] :=
  missingAudio_badRequest demoEnv ⟨none, none⟩ [] (by rfl) (by rfl)

/-- C8 counterexample: an empty-string history field is not valid JSON —
the environment here has `JSON.parse` throw on it, as the real one does on
`""` — yet `historyString ? JSON.parse(historyString) : []` (route.ts line
24) treats the empty string as falsy and never parses it, so the request
proceeds to a 200 (here) or a 400, never to the claimed 500
`{ error, details }` response. -/
theorem malformedHistory_serverError_counterexample :
    badJsonEnv.parseJSON "" =
      .error "Unexpected token o in JSON at position 1" ∧
    (POST badJsonEnv ⟨some demoFile, some ""⟩).1.status = 200 ∧
    ¬ (POST badJsonEnv ⟨some demoFile, some ""⟩).1.status = 500 ∧
    (POST badJsonEnv ⟨none, some ""⟩).1.status = 400 ∧
    ¬ (POST badJsonEnv ⟨none, some ""⟩).1.status = 500 :=
  ⟨rfl, rfl, by decide, rfl, by decide⟩

/-- C8 as amended: when the history form field is a *non-empty* string that
fails to parse as JSON, the orchestrator does not crash: it returns status
500 with body `{ error, details }` whose `error` is a fixed short
description and whose `details` is just the exception message (or a fixed
fallback when that message is empty), and it invokes no capability.  (An
empty-string history field is JS-falsy and is never parsed: the request
proceeds as if no history was supplied.) -/
theorem malformedHistory_serverError (env : ServerEnv) (req : ApiRequest)
    (s m : String)
    (hs : req.history = some s) (hne : s ≠ "")
    (hjson : env.parseJSON s = .error m) :
    (POST env req).1.status = 500 ∧
    (POST env req).1.body =
      ResponseBody.serverError "Failed to process audio chat"
        (if m = "" then "Unknown server error" else m) ∧
    (POST env req).2 = [] := by
  have hp : parseHistory env req.history = .error m := by
    unfold parseHistory
    rw [hs]
    dsimp only
    rw [if_neg hne]
    exact hjson
  rw [POST_parseError env req m hp]
  exact ⟨rfl, rfl, rfl⟩

/-- C8 witness (amended claim): the non-empty malformed history string
"not json" produces the 500
with the fixed error text and the parse-error message as details. -/
theorem malformedHistory_serverError_witness :
    (POST badJsonEnv ⟨some demoFile, some "not json"⟩).1.status = 500 ∧
    (POST badJsonEnv ⟨some demoFile, some "not json"⟩).1.body =
      ResponseBody.serverError "Failed to process audio chat"
        (if "Unexpected token o in JSON at position 1" = "" then
          "Unknown server error"
         else "Unexpected token o in JSON at position 1") ∧
    (POST badJsonEnv ⟨some demoFile, some "not json"⟩).2 = [] :=
  malformedHistory_serverError badJsonEnv ⟨some demoFile, some "not json"⟩
    "not json" "Unexpected token o in JSON at position 1"
    (by rfl) (by decide) (by rfl)

/-- C5 (code bug): after a submission that failed with a network error —
so the `catch` block did set the status to an error message, as the second
conjunct shows — the `finally` block still resets the status to the ready
prompt, because its condition (page.tsx line 205) tests the
closure-captured pre-submission status ("Click Start Recording") instead of
the status set during the submission.  The rest of the claim (chunks
cleared, flags false) does hold, and the Error turn is in the conversation,
but the error status the claim requires to survive is overwritten. -/
theorem statusReset_overwrites_error_status :
    (onstop recordedState "Click Start Recording" []
        (.networkError "Failed to fetch") true).1 =
      ⟨false, false,
        [⟨ConvRole.error, "Processing failed: Failed to fetch", none⟩],
        "Ready. Click Start Recording.", []⟩ ∧
    (processFetch (stopInitial recordedState)
        (.networkError "Failed to fetch") true).1.status =
      "Error: Failed to fetch" :=
  ⟨rfl, rfl⟩

/-- C6: whenever the client actually submits a request, the history it
sends has at most 8 entries, and every entry derives from a You- or
Assistant-role turn of the captured transcript — never from an Error turn. -/
theorem sent_history_bounded_no_error_turns (st : ClientState)
    (capturedStatus : String) (capturedConversation : List ConversationMessage)
    (fetch : FetchOutcome) (playResolves : Bool)
    (st2 : ClientState) (sent : SentRequest)
    (h : onstop st capturedStatus capturedConversation fetch playResolves =
      (st2, some sent)) :
    sent.history.length ≤ 8 ∧
    ∀ m ∈ sent.history, ∃ t, t ∈ capturedConversation ∧
      (t.role = ConvRole.you ∨ t.role = ConvRole.assistant) ∧
      m = apiOfMessage t := by
  unfold onstop at h
  by_cases hc : st.audioChunks.length = 0
  · rw [if_pos hc] at h
    simp at h
  · rw [if_neg hc] at h
    rw [Prod.mk.injEq] at h
    obtain ⟨-, h2⟩ := h
    injection h2 with h2
    subst h2
    exact ⟨buildHistoryForApi_length capturedConversation,
      buildHistoryForApi_mem capturedConversation⟩

/-- C6 witness: submitting over a ten-turn captured conversation that
contains Error and System turns. -/
theorem sent_history_bounded_no_error_turns_witness :
    ((onstop recordedState "Click Start Recording" demoConversation
        (.networkError "Failed to fetch") true).2.getD ⟨[], 0⟩).history.length
      ≤ 8 ∧
    ∀ m ∈ ((onstop recordedState "Click Start Recording" demoConversation
        (.networkError "Failed to fetch") true).2.getD ⟨[], 0⟩).history,
      ∃ t, t ∈ demoConversation ∧
        (t.role = ConvRole.you ∨ t.role = ConvRole.assistant) ∧
        m = apiOfMessage t :=
  sent_history_bounded_no_error_turns recordedState "Click Start Recording"
    demoConversation (.networkError "Failed to fetch") true
    (onstop recordedState "Click Start Recording" demoConversation
      (.networkError "Failed to fetch") true).1
    ((onstop recordedState "Click Start Recording" demoConversation
      (.networkError "Failed to fetch") true).2.getD ⟨[], 0⟩)
    (by rfl)

/-- C7: when a recording finishes with zero captured chunks, the client
sends nothing, appends no turn at all (in particular no Error turn), sets
the no-audio-detected status, and returns to idle with both flags false. -/
theorem zero_chunks_no_submission (st : ClientState)
    (capturedStatus : String) (capturedConversation : List ConversationMessage)
    (fetch : FetchOutcome) (playResolves : Bool)
    (hc : st.audioChunks = []) :
    (onstop st capturedStatus capturedConversation fetch playResolves).2 =
      none ∧
    (onstop st capturedStatus capturedConversation fetch
        playResolves).1.conversation = st.conversation ∧
    (onstop st capturedStatus capturedConversation fetch
        playResolves).1.status =
      "No audio detected. Please try recording again." ∧
    (onstop st capturedStatus capturedConversation fetch
        playResolves).1.isLoading = false ∧
    (onstop st capturedStatus capturedConversation fetch
        playResolves).1.isRecording = false := by
  unfold onstop
  rw [hc]
  exact ⟨rfl, rfl, rfl, rfl, rfl⟩

/-- C7 witness: a stop with an empty chunk buffer leaves the one-turn
conversation untouched and sends nothing. -/
theorem zero_chunks_no_submission_witness :
    (onstop ⟨true, false, [⟨ConvRole.you, "hi", none⟩],
        "Recording... Click Stop Recording", []⟩ "Click Start Recording" []
        (.networkError "Failed to fetch") true).2 = none ∧
    (onstop ⟨true, false, [⟨ConvRole.you, "hi", none⟩],
        "Recording... Click Stop Recording", []⟩ "Click Start Recording" []
        (.networkError "Failed to fetch") true).1.conversation =
      (⟨true, false, [⟨ConvRole.you, "hi", none⟩],
        "Recording... Click Stop Recording", []⟩ : ClientState).conversation ∧
    (onstop ⟨true, false, [⟨ConvRole.you, "hi", none⟩],
        "Recording... Click Stop Recording", []⟩ "Click Start Recording" []
        (.networkError "Failed to fetch") true).1.status =
      "No audio detected. Please try recording again." ∧
    (onstop ⟨true, false, [⟨ConvRole.you, "hi", none⟩],
        "Recording... Click Stop Recording", []⟩ "Click Start Recording" []
        (.networkError "Failed to fetch") true).1.isLoading = false ∧
    (onstop ⟨true, false, [⟨ConvRole.you, "hi", none⟩],
        "Recording... Click Stop Recording", []⟩ "Click Start Recording" []
        (.networkError "Failed to fetch") true).1.isRecording = false :=
  zero_chunks_no_submission
    ⟨true, false, [⟨ConvRole.you, "hi", none⟩],
      "Recording... Click Stop Recording", []⟩
    "Click Start Recording" [] (.networkError "Failed to fetch") true (by rfl)

end Zen
